import Mathlib

/-!
Verification of the archipack snap module (archipack_snap.py).

The module is a thin wrapper around the host (Blender) API: a global
SnapStore, an operator that brackets a native translate transform with
context save/restore (ArchipackSnapBase.init and ArchipackSnapBase.exit),
and an entry function snap_point.  We give a shallow embedding: the
relevant host state (object registry, scene links, active object, tool
settings) is explicit data, host calls that only notify the outside world
(draw handler add/remove, callback invocation, operator reports, the
native transform invocation) are recorded in an event trace, and the
module functions are translated line by line from the source.
-/

namespace Archipack

/-- Vector models mathutils.Vector restricted to 3d, with exact integer
coordinates (the module does no arithmetic of its own beyond copying and
the delta subtraction, so exactness is faithful). -/
structure Vector where
  x : Int
  y : Int
  z : Int
deriving DecidableEq, Repr

def Vector.sub (a b : Vector) : Vector :=
  { x := a.x - b.x, y := a.y - b.y, z := a.z - b.z }

def Vector.zero : Vector := { x := 0, y := 0, z := 0 }

/-- Matrix models mathutils.Matrix (4x4): a linear block given by rows and
a translation column.  Only construction, the translation accessor and
assignment to an object world matrix are used by the module. -/
structure Matrix where
  row0 : Vector
  row1 : Vector
  row2 : Vector
  translation : Vector
deriving DecidableEq, Repr

def Matrix.identity : Matrix :=
  { row0 := { x := 1, y := 0, z := 0 },
    row1 := { x := 0, y := 1, z := 0 },
    row2 := { x := 0, y := 0, z := 1 },
    translation := Vector.zero }

/-- Matrix.Translation mirrors mathutils Matrix().Translation(v). -/
def Matrix.Translation (v : Vector) : Matrix :=
  { Matrix.identity with translation := v }

/-- Obj models a bpy object datablock: name, world matrix, selection flag
and the fake-user flags (the data fake-user flag of the mesh datablock is
folded into the object record since the module touches nothing else of
the mesh). -/
structure Obj where
  name : String
  matrix_world : Matrix
  select : Bool
  use_fake_user : Bool
  data_use_fake_user : Bool
deriving DecidableEq, Repr

/-- Obj.location is the translation part of the world matrix, as in bpy. -/
def Obj.location (o : Obj) : Vector := o.matrix_world.translation

/-- TraceEvent records the host calls whose only effect is outside the
modelled state: draw handler registration, callback invocation (with the
callback reference, the outcome string and the stored placeloc at call
time), operator reports, the native transform invocation, modal handler
registration and redraw tagging. -/
inductive TraceEvent where
  | draw_handler_add (draw : Option Nat)
  | draw_handler_remove
  | callback_call (cb : Option Nat) (outcome : String) (stored_placeloc : Vector)
  | report (level : String) (msg : String)
  | transform_translate (axes : Bool × Bool × Bool) (orient : String)
  | modal_handler_add
  | tag_redraw
deriving DecidableEq, Repr

/-- Context models the parts of the bpy context the module reads and
writes: the data object registry (objects referenced by list index), the
scene link set, the scene active object, the snap tool settings, the
space data pivot and orientation, and the area type. -/
structure Context where
  objects : List Obj
  scene_links : List Nat
  active : Option Nat
  use_snap : Bool
  snap_element : String
  snap_target : String
  pivot_point : String
  transform_orientation : String
  area_type : String
deriving DecidableEq, Repr

/-- SnapStore is the global store of the module (class SnapStore).  The
draw and callback hooks are opaque caller functions, modelled by numeric
references; mode is set dynamically by snap_point, hence an Option. -/
structure SnapStore where
  callback : Option Nat
  draw : Option Nat
  helper : Option Nat
  takeloc : Vector
  placeloc : Vector
  constraint_axis : Bool × Bool × Bool
  helper_matrix : Matrix
  transform_orientation : String
  mode : Option String
deriving DecidableEq, Repr

/-- SnapStore.initial gives the class-level initial values of SnapStore. -/
def SnapStore.initial : SnapStore :=
  { callback := none, draw := none, helper := none,
    takeloc := Vector.zero, placeloc := Vector.zero,
    constraint_axis := (true, true, false),
    helper_matrix := Matrix.identity,
    transform_orientation := "GLOBAL", mode := none }

/-- Session models the instance fields of ArchipackSnapBase, the saved
context snapshot.  Fields that the Python constructor initialises to
None are Options. -/
structure Session where
  act : Option Nat
  sel : List Nat
  use_snap : Bool
  snap_element : Option String
  snap_target : Option String
  pivot_point : Option String
  transform_orientation : Option String
  draw_handler : Option Nat
deriving DecidableEq, Repr

/-- Session.initial gives the values set by the ArchipackSnapBase
constructor. -/
def Session.initial : Session :=
  { act := none, sel := [], use_snap := false, snap_element := none,
    snap_target := none, pivot_point := none,
    transform_orientation := none, draw_handler := none }

/-- World bundles the whole modelled state: host context, global store,
operator session fields and the outward event trace. -/
structure World where
  ctx : Context
  store : SnapStore
  sess : Session
  trace : List TraceEvent
deriving DecidableEq, Repr

/-- Event models a bpy event; the module only reads its type string. -/
structure Event where
  type : String
deriving DecidableEq, Repr

/-- list_modify applies f to the element at the given index, leaving the
list unchanged when the index is out of range; it models an attribute
assignment through an object reference in the registry model. -/
def list_modify (f : Obj → Obj) : Nat → List Obj → List Obj
  | _, [] => []
  | 0, o :: rest => f o :: rest
  | n + 1, o :: rest => o :: list_modify f n rest

/-- set_sel_by sets the select flag to b on every object whose index
satisfies p. -/
def set_sel_by (p : Nat → Bool) (b : Bool) : List Obj → List Obj
  | [] => []
  | o :: rest =>
      (if p 0 then { o with select := b } else o)
        :: set_sel_by (fun i => p (i + 1)) b rest

/-- restore_sel sets the select flag on each listed index in turn; it
models the restore loop of ArchipackSnapBase.exit. -/
def restore_sel (sel : List Nat) (objs : List Obj) : List Obj :=
  match sel with
  | [] => objs
  | i :: rest => restore_sel rest (list_modify (fun o => { o with select := true }) i objs)

/-- find_by_name models bpy.data.objects.find: the index of the first
object with the given name, none when absent. -/
def find_by_name (nm : String) : List Obj → Option Nat
  | [] => none
  | o :: rest =>
      if o.name = nm then some 0 else (find_by_name nm rest).map (· + 1)

/-- sel_pred tells whether the object at an index exists and is selected. -/
def sel_pred (objs : List Obj) (i : Nat) : Bool :=
  match objs[i]? with
  | some o => o.select
  | none => false

/-- Context.selected_objects models context.selected_objects: the linked
objects that are selected. -/
def Context.selected_objects (c : Context) : List Nat :=
  c.scene_links.filter (sel_pred c.objects)

/-- name_pred tells whether the object at an index exists and carries the
given name. -/
def name_pred (objs : List Obj) (nm : String) (i : Nat) : Bool :=
  match objs[i]? with
  | some o => o.name = nm
  | none => false

/-- Context.scene_find models context.scene.objects.find(nm) >= 0: some
linked object carries the given name. -/
def Context.scene_find (c : Context) (nm : String) : Bool :=
  c.scene_links.any (name_pred c.objects nm)

/-- Context.deselect_all models bpy.ops.object.select_all DESELECT:
clears the select flag of every linked object. -/
def Context.deselect_all (c : Context) : Context :=
  { c with objects := set_sel_by (fun i => decide (i ∈ c.scene_links)) false c.objects }

/-- Context.scene_link models context.scene.objects.link. -/
def Context.scene_link (c : Context) (i : Nat) : Context :=
  { c with scene_links := c.scene_links ++ [i] }

/-- Context.unlink models context.scene.objects.unlink: the object leaves
the scene; when it was the scene active object the active slot is
cleared. -/
def Context.unlink (c : Context) (i : Nat) : Context :=
  { c with scene_links := c.scene_links.filter (fun j => decide (j ≠ i)),
           active := if c.active = some i then none else c.active }

/-- Obj.new_mesh is the fresh object produced by bpy.ops.object.add with
type MESH: default name, identity transform, selected. -/
def Obj.new_mesh : Obj :=
  { name := "Mesh", matrix_world := Matrix.identity, select := true,
    use_fake_user := false, data_use_fake_user := false }

/-- Context.add_mesh models bpy.ops.object.add(type=MESH): deselect all,
append a fresh object to the registry, link it to the scene, select it
and make it active; returns the new index. -/
def Context.add_mesh (c : Context) : Context × Nat :=
  let n := c.objects.length
  let c := c.deselect_all
  ({ c with objects := c.objects ++ [Obj.new_mesh],
            scene_links := c.scene_links ++ [n],
            active := some n }, n)

/-- World.helper_tail is the shared tail of create_helper (source lines
setting helper.matrix_world, helper.select, the scene active object and
SnapStore.helper). -/
def World.helper_tail (w : World) (i : Nat) : World :=
  let c := w.ctx
  let c := { c with objects := list_modify (fun o => { o with matrix_world := w.store.helper_matrix }) i c.objects }
  let c := { c with objects := list_modify (fun o => { o with select := true }) i c.objects }
  let c := { c with active := some i }
  { w with ctx := c, store := { w.store with helper := some i } }

/-- World.create_helper translates ArchipackSnapBase.create_helper: find
the reserved helper by name and relink it when unlinked, or add a fresh
mesh object, rename it and set the fake user flags; then set its world
matrix, select it, make it active and store the reference. -/
def World.create_helper (w : World) : World :=
  match find_by_name "Archipack_snap_helper" w.ctx.objects with
  | some i =>
      let c := w.ctx
      let c := if c.scene_find "Archipack_snap_helper" then c else c.scene_link i
      World.helper_tail { w with ctx := c } i
  | none =>
      let p := w.ctx.add_mesh
      let n := p.2
      let c := p.1
      let c := { c with objects := list_modify (fun o => { o with name := "Archipack_snap_helper" }) n c.objects }
      let c := { c with objects := list_modify (fun o => { o with use_fake_user := true }) n c.objects }
      let c := { c with objects := list_modify (fun o => { o with data_use_fake_user := true }) n c.objects }
      World.helper_tail { w with ctx := c } n

/-- World.destroy_helper translates ArchipackSnapBase.destroy_helper:
unlink the helper from the scene and clear the store reference. -/
def World.destroy_helper (w : World) : World :=
  match w.store.helper with
  | some h => { w with ctx := w.ctx.unlink h, store := { w.store with helper := none } }
  | none => w

/-- World.set_transform_orientation translates
ArchipackSnapBase.set_transform_orientation. -/
def World.set_transform_orientation (w : World) : World :=
  { w with ctx := { w.ctx with transform_orientation := w.store.transform_orientation } }

/-- World.init translates ArchipackSnapBase.init: capture the selection
and active object, deselect all, capture the tool and space settings,
create the helper, force the configured orientation and register the
draw handler. -/
def World.init (w : World) : World :=
  let sel := w.ctx.selected_objects
  let act := w.ctx.active
  let c := w.ctx.deselect_all
  let s : Session :=
    { act := act, sel := sel, use_snap := c.use_snap,
      snap_element := some c.snap_element,
      snap_target := some c.snap_target,
      pivot_point := some c.pivot_point,
      transform_orientation := some c.transform_orientation,
      draw_handler := some w.trace.length }
  let w := { w with ctx := c, sess := s }
  let w := w.create_helper
  let w := w.set_transform_orientation
  { w with trace := w.trace ++ [TraceEvent.draw_handler_add w.store.draw] }

/-- World.exit translates ArchipackSnapBase.exit: remove the draw
handler, destroy the helper, restore the saved settings, reselect the
saved selection and restore the active object.  The host assignment
context.scene.objects.active = self.act resolves the object through the
scene base list, so it only takes effect when the object is currently
linked to the scene; for an unlinked object (such as the helper the
preceding destroy just unlinked) it is a silent no-op, which the final
match models by the membership test.  A still-uninitialised Option field
(impossible after init) restores as a no-op. -/
def World.exit (w : World) : World :=
  let w := { w with trace := w.trace ++ [TraceEvent.draw_handler_remove] }
  let w := w.destroy_helper
  let c := w.ctx
  let c := { c with use_snap := w.sess.use_snap }
  let c := { c with snap_element := w.sess.snap_element.getD c.snap_element }
  let c := { c with snap_target := w.sess.snap_target.getD c.snap_target }
  let c := { c with pivot_point := w.sess.pivot_point.getD c.pivot_point }
  let c := { c with transform_orientation := w.sess.transform_orientation.getD c.transform_orientation }
  let c := { c with objects := restore_sel w.sess.sel c.objects }
  let c := match w.sess.act with
           | some a => if a ∈ c.scene_links then { c with active := some a } else c
           | none => c
  { w with ctx := c }

/-- World.sp_takeloc is the takeloc property of ArchipackSnapBase. -/
def World.sp_takeloc (w : World) : Vector := w.store.takeloc

/-- World.sp_placeloc is the placeloc property of ArchipackSnapBase: the
helper live location while the helper exists, the stored placeloc
otherwise.  A dangling helper index (never produced by the module) reads
as the stored placeloc. -/
def World.sp_placeloc (w : World) : Vector :=
  match w.store.helper with
  | some h =>
      match w.ctx.objects[h]? with
      | some ob => ob.location
      | none => w.store.placeloc
  | none => w.store.placeloc

/-- World.sp_delta is the delta property of ArchipackSnapBase. -/
def World.sp_delta (w : World) : Vector :=
  (w.sp_placeloc).sub w.sp_takeloc

/-- World.modal translates ARCHIPACK_OT_snap.modal: tag a redraw; on ESC
or RIGHTMOUSE invoke the callback with CANCEL, otherwise copy the helper
live location into the stored placeloc and invoke the callback with
SUCCESS; in both cases run exit and return FINISHED.  Reading the live
location through a missing helper reference (an AttributeError in the
source) yields none. -/
def World.modal (w : World) (event : Event) : Option (World × String) :=
  let w := { w with trace := w.trace ++ [TraceEvent.tag_redraw] }
  if event.type = "ESC" ∨ event.type = "RIGHTMOUSE" then
    let w := { w with trace := w.trace ++ [TraceEvent.callback_call w.store.callback "CANCEL" w.store.placeloc] }
    some (w.exit, "FINISHED")
  else
    match w.store.helper with
    | none => none
    | some h =>
        match w.ctx.objects[h]? with
        | none => none
        | some ob =>
            let w := { w with store := { w.store with placeloc := ob.location } }
            let w := { w with trace := w.trace ++ [TraceEvent.callback_call w.store.callback "SUCCESS" w.store.placeloc] }
            some (w.exit, "FINISHED")

/-- World.invoke translates ARCHIPACK_OT_snap.invoke: in a VIEW_3D area
run init, add the modal handler and start the native translate transform
returning RUNNING_MODAL; otherwise report a warning and return
FINISHED. -/
def World.invoke (w : World) : World × String :=
  if w.ctx.area_type = "VIEW_3D" then
    let w := w.init
    let w := { w with trace := w.trace ++ [TraceEvent.modal_handler_add] }
    let w := { w with trace := w.trace ++ [TraceEvent.transform_translate w.store.constraint_axis w.store.transform_orientation] }
    (w, "RUNNING_MODAL")
  else
    ({ w with trace := w.trace ++ [TraceEvent.report "WARNING" "View3D not found, cannot run operator"] }, "FINISHED")

/-- snap_point translates the entry function snap_point: store the draw
and callback hooks and the constraint axes; with a takemat use its
translation as takeloc and force LOCAL orientation, without one require
takeloc (else a ValueError, modelled as the error outcome) and build a
translation helper matrix; store takeloc, placeloc, orientation and
mode; finally invoke the operator. -/
def snap_point (takeloc : Option Vector) (draw : Nat) (callback : Nat)
    (takemat : Option Matrix) (constraint_axis : Bool × Bool × Bool)
    (transform_orientation : String) (mode : String) (w : World) :
    World × Except String Unit :=
  let s := w.store
  let s := { s with draw := some draw, callback := some callback,
                    constraint_axis := constraint_axis }
  match takemat with
  | some m =>
      let s := { s with helper_matrix := m, takeloc := m.translation,
                        placeloc := m.translation,
                        transform_orientation := "LOCAL", mode := some mode }
      let w := (World.invoke { w with store := s }).1
      (w, Except.ok ())
  | none =>
      match takeloc with
      | none =>
          ({ w with store := s },
           Except.error "ArchipackSnap: Either takeloc or takemat must be defined")
      | some t =>
          let s := { s with helper_matrix := Matrix.Translation t, takeloc := t,
                            placeloc := t,
                            transform_orientation := transform_orientation,
                            mode := some mode }
          let w := (World.invoke { w with store := s }).1
          (w, Except.ok ())

/-- callback_count counts the callback invocations recorded in a trace. -/
def callback_count (t : List TraceEvent) : Nat :=
  (t.filter fun ev => match ev with
    | TraceEvent.callback_call _ _ _ => true
    | _ => false).length

/-- cancel_count counts the callback invocations with outcome CANCEL. -/
def cancel_count (t : List TraceEvent) : Nat :=
  (t.filter fun ev => match ev with
    | TraceEvent.callback_call _ o _ => decide (o = "CANCEL")
    | _ => false).length

/-- World.with_placeloc overwrites the stored placeloc; it models the
write the modal SUCCESS path performs before exit, so that session
restore facts can be stated for both modal outcomes at once. -/
def World.with_placeloc (w : World) (pl : Vector) : World :=
  { w with store := { w.store with placeloc := pl } }

/-! Concrete worlds used to instantiate the theorems. -/

/-- helper_obj0 is a registry object carrying the reserved helper name,
used in the scenario refuting the unconditional form of the session
restore property. -/
def helper_obj0 : Obj :=
  { name := "Archipack_snap_helper", matrix_world := Matrix.identity,
    select := true, use_fake_user := true, data_use_fake_user := true }

/-- ctx_c1 is a context where the reserved helper object is linked,
selected and active before the session starts. -/
def ctx_c1 : Context :=
  { objects := [helper_obj0], scene_links := [0], active := some 0,
    use_snap := false, snap_element := "INCREMENT", snap_target := "CLOSEST",
    pivot_point := "MEDIAN_POINT", transform_orientation := "GLOBAL",
    area_type := "VIEW_3D" }

/-- world_c1 is the session start world of the restore counterexample. -/
def world_c1 : World :=
  { ctx := ctx_c1, store := SnapStore.initial, sess := Session.initial,
    trace := [] }

/-- ctx_c1b is a context where the reserved helper object is linked and
active but not selected: it satisfies the selection proviso of the
amended restore property, yet the program cannot restore the active
object (the restore assignment is a no-op on the just-unlinked
helper). -/
def ctx_c1b : Context :=
  { objects := [{ helper_obj0 with select := false }], scene_links := [0],
    active := some 0, use_snap := false, snap_element := "INCREMENT",
    snap_target := "CLOSEST", pivot_point := "MEDIAN_POINT",
    transform_orientation := "GLOBAL", area_type := "VIEW_3D" }

/-- world_c1b is the session start world of the active-object
counterexample. -/
def world_c1b : World :=
  { ctx := ctx_c1b, store := SnapStore.initial, sess := Session.initial,
    trace := [] }

/-- cube_obj is an ordinary selected scene object. -/
def cube_obj : Obj :=
  { name := "Cube", matrix_world := Matrix.identity, select := true,
    use_fake_user := false, data_use_fake_user := false }

/-- ctx_ok is a benign VIEW_3D context with one ordinary selected
object. -/
def ctx_ok : Context :=
  { objects := [cube_obj], scene_links := [0], active := some 0,
    use_snap := true, snap_element := "VERTEX", snap_target := "CLOSEST",
    pivot_point := "MEDIAN_POINT", transform_orientation := "GLOBAL",
    area_type := "VIEW_3D" }

/-- world_ok is a benign session start world. -/
def world_ok : World :=
  { ctx := ctx_ok, store := SnapStore.initial, sess := Session.initial,
    trace := [] }

/-- world_modal is a world as seen by a modal step: the store holds a
helper reference to the first registry object. -/
def world_modal : World :=
  { world_ok with store := { SnapStore.initial with helper := some 0 } }

/-- world_noview is world_ok with a non viewport area. -/
def world_noview : World :=
  { world_ok with ctx := { ctx_ok with area_type := "PROPERTIES" } }

/-- world_helper is a world whose registry already holds the reserved
helper object, currently unlinked from the scene. -/
def world_helper : World :=
  { world_ok with ctx := { ctx_ok with
      objects := [helper_obj0],
      scene_links := [],
      active := none } }

/-! Basic lemmas about the registry primitives. -/

theorem get?_list_modify (f : Obj → Obj) (i j : Nat) (l : List Obj) :
    (list_modify f i l)[j]? = if j = i then (l[j]?).map f else l[j]? := by
  induction l generalizing i j with
  | nil => simp [list_modify]
  | cons o rest ih =>
      cases i with
      | zero =>
          cases j with
          | zero => simp [list_modify]
          | succ j => simp [list_modify]
      | succ i =>
          cases j with
          | zero => simp [list_modify]
          | succ j => simp [list_modify, ih i j]

theorem length_list_modify (f : Obj → Obj) (i : Nat) (l : List Obj) :
    (list_modify f i l).length = l.length := by
  induction l generalizing i with
  | nil => simp [list_modify]
  | cons o rest ih =>
      cases i with
      | zero => simp [list_modify]
      | succ i => simp [list_modify, ih i]

theorem get?_set_sel_by (p : Nat → Bool) (b : Bool) (j : Nat) (l : List Obj) :
    (set_sel_by p b l)[j]?
      = (l[j]?).map (fun o => if p j then { o with select := b } else o) := by
  induction l generalizing p j with
  | nil => simp [set_sel_by]
  | cons o rest ih =>
      cases j with
      | zero => simp [set_sel_by]
      | succ j => simp [set_sel_by, ih]

theorem length_set_sel_by (p : Nat → Bool) (b : Bool) (l : List Obj) :
    (set_sel_by p b l).length = l.length := by
  induction l generalizing p with
  | nil => simp [set_sel_by]
  | cons o rest ih => simp [set_sel_by, ih]

theorem get?_restore_sel (sel : List Nat) (objs : List Obj) (j : Nat) :
    (restore_sel sel objs)[j]?
      = if j ∈ sel then (objs[j]?).map (fun o => { o with select := true })
        else objs[j]? := by
  induction sel generalizing objs with
  | nil => simp [restore_sel]
  | cons i rest ih =>
      simp only [restore_sel]
      rw [ih, get?_list_modify]
      by_cases hj : j ∈ rest
      · by_cases hji : j = i
        · subst hji
          simp only [hj, if_true, List.mem_cons, true_or, or_true]
          cases h : objs[j]? <;> simp
        · simp [hj, hji]
      · by_cases hji : j = i
        · subst hji
          simp [hj]
        · simp [hj, hji]

theorem find_by_name_spec (nm : String) (l : List Obj) (i : Nat)
    (h : find_by_name nm l = some i) :
    ∃ o, l[i]? = some o ∧ o.name = nm := by
  induction l generalizing i with
  | nil => simp [find_by_name] at h
  | cons o rest ih =>
      by_cases ho : o.name = nm
      · simp [find_by_name, ho] at h
        exact ⟨o, by simp [← h], ho⟩
      · simp [find_by_name, ho] at h
        obtain ⟨j, hj, hji⟩ := h
        obtain ⟨ob, hob, hname⟩ := ih j hj
        exact ⟨ob, by simp [← hji, hob], hname⟩

theorem find_by_name_set_sel_by (nm : String) (p : Nat → Bool) (b : Bool)
    (l : List Obj) :
    find_by_name nm (set_sel_by p b l) = find_by_name nm l := by
  induction l generalizing p with
  | nil => rfl
  | cons o rest ih =>
      by_cases hp : p 0 <;> simp [set_sel_by, find_by_name, hp, ih]

/-! Characterisation of create_helper, one lemma per branch of the
name lookup. -/

theorem create_helper_found (w : World) (i : Nat)
    (hf : find_by_name "Archipack_snap_helper" w.ctx.objects = some i) :
    (w.create_helper).ctx.objects.length = w.ctx.objects.length ∧
    (∃ ob₀, w.ctx.objects[i]? = some ob₀ ∧ ob₀.name = "Archipack_snap_helper" ∧
      (w.create_helper).ctx.objects[i]?
        = some { ob₀ with matrix_world := w.store.helper_matrix, select := true }) ∧
    (∀ j, j ≠ i → (w.create_helper).ctx.objects[j]? = w.ctx.objects[j]?) ∧
    (w.create_helper).ctx.scene_links
      = (if w.ctx.scene_find "Archipack_snap_helper" then w.ctx.scene_links
         else w.ctx.scene_links ++ [i]) ∧
    (w.create_helper).ctx.active = some i ∧
    (w.create_helper).store = { w.store with helper := some i } ∧
    (w.create_helper).sess = w.sess ∧
    (w.create_helper).trace = w.trace ∧
    (w.create_helper).ctx.use_snap = w.ctx.use_snap ∧
    (w.create_helper).ctx.snap_element = w.ctx.snap_element ∧
    (w.create_helper).ctx.snap_target = w.ctx.snap_target ∧
    (w.create_helper).ctx.pivot_point = w.ctx.pivot_point ∧
    (w.create_helper).ctx.transform_orientation = w.ctx.transform_orientation ∧
    (w.create_helper).ctx.area_type = w.ctx.area_type := by
  obtain ⟨ob₀, hob₀, hname⟩ := find_by_name_spec _ _ _ hf
  cases hsf : w.ctx.scene_find "Archipack_snap_helper" <;>
    simp only [World.create_helper, hf, hsf, World.helper_tail, Context.scene_link,
      Bool.false_eq_true, if_false, if_true, reduceCtorEq] <;>
    refine ⟨by simp [length_list_modify], ⟨ob₀, hob₀, hname, ?_⟩, ?_, by simp,
      by trivial, by trivial, by trivial, by trivial, by trivial, by trivial,
      by trivial, by trivial, by trivial, by trivial⟩
  · simp [get?_list_modify, hob₀]
  · intro j hj
    simp [get?_list_modify, hj]
  · simp [get?_list_modify, hob₀]
  · intro j hj
    simp [get?_list_modify, hj]

theorem create_helper_none (w : World)
    (hf : find_by_name "Archipack_snap_helper" w.ctx.objects = none) :
    (w.create_helper).ctx.objects.length = w.ctx.objects.length + 1 ∧
    (w.create_helper).ctx.objects[w.ctx.objects.length]?
      = some { name := "Archipack_snap_helper",
               matrix_world := w.store.helper_matrix, select := true,
               use_fake_user := true, data_use_fake_user := true } ∧
    (∀ j, j ≠ w.ctx.objects.length →
      (w.create_helper).ctx.objects[j]? = ((w.ctx.deselect_all).objects)[j]?) ∧
    (w.create_helper).ctx.scene_links
      = w.ctx.scene_links ++ [w.ctx.objects.length] ∧
    (w.create_helper).ctx.active = some w.ctx.objects.length ∧
    (w.create_helper).store = { w.store with helper := some w.ctx.objects.length } ∧
    (w.create_helper).sess = w.sess ∧
    (w.create_helper).trace = w.trace ∧
    (w.create_helper).ctx.use_snap = w.ctx.use_snap ∧
    (w.create_helper).ctx.snap_element = w.ctx.snap_element ∧
    (w.create_helper).ctx.snap_target = w.ctx.snap_target ∧
    (w.create_helper).ctx.pivot_point = w.ctx.pivot_point ∧
    (w.create_helper).ctx.transform_orientation = w.ctx.transform_orientation ∧
    (w.create_helper).ctx.area_type = w.ctx.area_type := by
  have hlen : (set_sel_by (fun i => decide (i ∈ w.ctx.scene_links)) false
      w.ctx.objects).length = w.ctx.objects.length :=
    length_set_sel_by _ _ _
  simp only [World.create_helper, hf, Context.add_mesh, Context.deselect_all,
    World.helper_tail]
  refine ⟨?_, ?_, ?_, by simp, by trivial, by trivial, by trivial, by trivial,
    by trivial, by trivial, by trivial, by trivial, by trivial, by trivial⟩
  · simp [length_list_modify, hlen]
  · rw [get?_list_modify, get?_list_modify, get?_list_modify, get?_list_modify,
      get?_list_modify]
    simp only [if_true, if_pos rfl]
    rw [List.getElem?_append_right (by omega)]
    simp [hlen, Obj.new_mesh]
  · intro j hj
    rw [get?_list_modify, get?_list_modify, get?_list_modify, get?_list_modify,
      get?_list_modify]
    simp [hj]
    rcases Nat.lt_or_ge j w.ctx.objects.length with hlt | hge
    · rw [List.getElem?_append, hlen]
      simp [hlt]
    · have h1 : (set_sel_by (fun i => decide (i ∈ w.ctx.scene_links)) false
          w.ctx.objects)[j]? = none := by
        apply List.getElem?_eq_none
        omega
      have hj' : w.ctx.objects.length < j := by
        rcases Nat.eq_or_lt_of_le hge with he | hlt
        · exact absurd he.symm hj
        · exact hlt
      rw [h1, List.getElem?_append_right (by omega)]
      apply List.getElem?_eq_none
      simp
      omega

/-- create_helper_spec collects the branch-independent facts: afterwards
the store holds a helper reference to an object whose world matrix is the
stored helper matrix, selected and active, with session, trace and the
remaining context fields untouched. -/
theorem create_helper_spec (w : World) :
    ∃ h ob,
      (w.create_helper).store = { w.store with helper := some h } ∧
      (w.create_helper).ctx.objects[h]? = some ob ∧
      ob.matrix_world = w.store.helper_matrix ∧
      ob.select = true ∧
      (w.create_helper).ctx.active = some h ∧
      (w.create_helper).sess = w.sess ∧
      (w.create_helper).trace = w.trace ∧
      (w.create_helper).ctx.area_type = w.ctx.area_type ∧
      (w.create_helper).ctx.use_snap = w.ctx.use_snap := by
  cases hf : find_by_name "Archipack_snap_helper" w.ctx.objects with
  | some i =>
      obtain ⟨hlen, ⟨ob₀, hob₀, hname, hobj⟩, hpt, hlinks, hact, hstore, hsess,
        htr, hus, hse, hst, hpp, hto, hat⟩ := create_helper_found w i hf
      exact ⟨i, _, hstore, hobj, rfl, rfl, hact, hsess, htr, hat, hus⟩
  | none =>
      obtain ⟨hlen, hobj, hpt, hlinks, hact, hstore, hsess, htr, hus, hse,
        hst, hpp, hto, hat⟩ := create_helper_none w hf
      exact ⟨w.ctx.objects.length, _, hstore, hobj, rfl, rfl, hact, hsess,
        htr, hat, hus⟩

/-- init_spec characterises ArchipackSnapBase.init: the store gains a
helper reference to a selected object carrying the stored helper matrix
as world transform, the helper is active, the orientation is forced to
the stored orientation mode, and the session snapshot holds the original
active object and selection. -/
theorem init_spec (w : World) :
    ∃ h ob,
      (w.init).store = { w.store with helper := some h } ∧
      (w.init).ctx.objects[h]? = some ob ∧
      ob.matrix_world = w.store.helper_matrix ∧
      ob.select = true ∧
      (w.init).ctx.active = some h ∧
      (w.init).ctx.transform_orientation = w.store.transform_orientation ∧
      (w.init).ctx.area_type = w.ctx.area_type ∧
      (w.init).sess.act = w.ctx.active ∧
      (w.init).sess.sel = w.ctx.selected_objects := by
  obtain ⟨h, ob, hstore, hobj, hmx, hsel, hact, hsess, htr, hat, hus⟩ :=
    create_helper_spec { w with
      ctx := w.ctx.deselect_all,
      sess := {
        act := w.ctx.active,
        sel := w.ctx.selected_objects,
        use_snap := (w.ctx.deselect_all).use_snap,
        snap_element := some (w.ctx.deselect_all).snap_element,
        snap_target := some (w.ctx.deselect_all).snap_target,
        pivot_point := some (w.ctx.deselect_all).pivot_point,
        transform_orientation := some (w.ctx.deselect_all).transform_orientation,
        draw_handler := some w.trace.length } }
  refine ⟨h, ob, hstore, hobj, hmx, hsel, hact, ?_, ?_, ?_, ?_⟩
  · have h2 := congrArg SnapStore.transform_orientation hstore
    simpa using h2
  · exact hat
  · have h2 := congrArg Session.act hsess
    simpa using h2
  · have h2 := congrArg Session.sel hsess
    simpa using h2

/-- invoke_cases characterises ARCHIPACK_OT_snap.invoke: outside a
VIEW_3D area the world only gains the warning report; otherwise the
session facts of init_spec hold for the invoke result. -/
theorem invoke_cases (w : World) :
    (w.ctx.area_type ≠ "VIEW_3D" ∧
      (w.invoke).1 = { w with trace := w.trace
        ++ [TraceEvent.report "WARNING" "View3D not found, cannot run operator"] }) ∨
    (∃ h ob,
      (w.invoke).1.store = { w.store with helper := some h } ∧
      (w.invoke).1.ctx.objects[h]? = some ob ∧
      ob.matrix_world = w.store.helper_matrix ∧
      ob.select = true ∧
      (w.invoke).1.ctx.active = some h ∧
      (w.invoke).1.ctx.area_type = w.ctx.area_type ∧
      (w.invoke).1.sess.act = w.ctx.active ∧
      (w.invoke).1.sess.sel = w.ctx.selected_objects) := by
  by_cases hv : w.ctx.area_type = "VIEW_3D"
  · right
    obtain ⟨h, ob, hstore, hobj, hmx, hsel, hact, hto, hat, hsa, hss⟩ := init_spec w
    refine ⟨h, ob, ?_, ?_, hmx, hsel, ?_, ?_, ?_, ?_⟩ <;>
      simp [World.invoke, hv] <;>
      first
        | exact hstore
        | exact hobj
        | exact hact
        | exact hat.trans hv
        | exact hat
        | exact hsa
        | exact hss
  · left
    exact ⟨hv, by simp [World.invoke, hv]⟩

/-- invoke_store states that invoke only ever changes the helper field of
the store. -/
theorem invoke_store (w : World) :
    ∃ hh, (w.invoke).1.store = { w.store with helper := hh } := by
  rcases invoke_cases w with ⟨hv, heq⟩ | ⟨h, ob, hstore, _⟩
  · refine ⟨w.store.helper, ?_⟩
    rw [heq]
  · exact ⟨some h, hstore⟩

/-- C4: supplying takemat forces the stored takeloc to the matrix
translation and the stored orientation mode to LOCAL, overriding any
orientation mode passed by the caller, and the call succeeds. -/
theorem c4_takemat (w : World) (tl : Option Vector) (d cb : Nat) (m : Matrix)
    (axes : Bool × Bool × Bool) (orient mode : String) :
    (snap_point tl d cb (some m) axes orient mode w).1.store.takeloc = m.translation ∧
    (snap_point tl d cb (some m) axes orient mode w).1.store.transform_orientation
        = "LOCAL" ∧
    (snap_point tl d cb (some m) axes orient mode w).2 = Except.ok () := by
  obtain ⟨hh, hs⟩ := invoke_store { w with store := { w.store with
    draw := some d,
    callback := some cb,
    constraint_axis := axes,
    helper_matrix := m,
    takeloc := m.translation,
    placeloc := m.translation,
    transform_orientation := "LOCAL",
    mode := some mode } }
  refine ⟨?_, ?_, rfl⟩
  · have h2 := congrArg SnapStore.takeloc hs
    simpa using h2
  · have h2 := congrArg SnapStore.transform_orientation hs
    simpa using h2

/-- post_invoke_zero: when the pre-invoke store has placeloc equal to
takeloc and a helper matrix translating to takeloc, then after invoke the
stored placeloc still equals takeloc and the delta property is the zero
vector (given no stale helper reference outside a VIEW_3D area). -/
theorem post_invoke_zero (w : World) (s : SnapStore)
    (hpt : s.placeloc = s.takeloc)
    (htr : s.helper_matrix.translation = s.takeloc)
    (hh : s.helper = none ∨ w.ctx.area_type = "VIEW_3D") :
    (World.invoke { w with store := s }).1.store.placeloc
      = (World.invoke { w with store := s }).1.store.takeloc ∧
    (World.invoke { w with store := s }).1.sp_delta = Vector.zero := by
  rcases invoke_cases { w with store := s } with
    ⟨hv, heq⟩ | ⟨h, ob, hstore, hobj, hmx, hsel, hact, hat, hsa, hss⟩
  · have hnone : s.helper = none := by
      rcases hh with hn | hv3
      · exact hn
      · exact absurd hv3 hv
    constructor
    · rw [heq]
      exact hpt
    · rw [heq]
      simp [World.sp_delta, World.sp_placeloc, World.sp_takeloc, hnone, hpt,
        Vector.sub, Vector.zero]
  · constructor
    · rw [hstore]
      exact hpt
    · simp [World.sp_delta, World.sp_placeloc, World.sp_takeloc, hstore, hobj,
        Obj.location, hmx, htr, Vector.sub, Vector.zero]

/-- C9: immediately after a successful snap_point call (no modal event
processed yet) the stored placeloc equals the stored takeloc, and the
delta property of the session is the zero vector. -/
theorem c9_zero_delta (w : World) (tl : Option Vector) (d cb : Nat)
    (tm : Option Matrix) (axes : Bool × Bool × Bool) (orient mode : String)
    (hh : w.store.helper = none ∨ w.ctx.area_type = "VIEW_3D")
    (hok : (snap_point tl d cb tm axes orient mode w).2 = Except.ok ()) :
    (snap_point tl d cb tm axes orient mode w).1.store.placeloc
      = (snap_point tl d cb tm axes orient mode w).1.store.takeloc ∧
    (snap_point tl d cb tm axes orient mode w).1.sp_delta = Vector.zero := by
  cases tm with
  | some m =>
      exact post_invoke_zero w { w.store with
        draw := some d,
        callback := some cb,
        constraint_axis := axes,
        helper_matrix := m,
        takeloc := m.translation,
        placeloc := m.translation,
        transform_orientation := "LOCAL",
        mode := some mode } rfl rfl hh
  | none =>
      cases tl with
      | none => simp [snap_point] at hok
      | some t =>
          exact post_invoke_zero w { w.store with
            draw := some d,
            callback := some cb,
            constraint_axis := axes,
            helper_matrix := Matrix.Translation t,
            takeloc := t,
            placeloc := t,
            transform_orientation := orient,
            mode := some mode } rfl rfl hh

/-! Lemmas about exit that do not depend on the session history. -/

theorem exit_store_placeloc (w : World) :
    (w.exit).store.placeloc = w.store.placeloc := by
  unfold World.exit World.destroy_helper
  cases hh : w.store.helper <;> simp [hh]

theorem exit_store_takeloc (w : World) :
    (w.exit).store.takeloc = w.store.takeloc := by
  unfold World.exit World.destroy_helper
  cases hh : w.store.helper <;> simp [hh]

theorem exit_store_helper (w : World) :
    (w.exit).store.helper = none := by
  unfold World.exit World.destroy_helper
  cases hh : w.store.helper <;> simp [hh]

theorem exit_trace (w : World) :
    (w.exit).trace = w.trace ++ [TraceEvent.draw_handler_remove] := by
  unfold World.exit World.destroy_helper
  cases hh : w.store.helper <;> simp [hh]

/-- exit_ctx_fields characterises the context produced by exit in terms
of the input world, when a helper reference is present. -/
theorem exit_ctx_fields (w : World) (h : Nat) (hh : w.store.helper = some h) :
    (w.exit).ctx.objects = restore_sel w.sess.sel w.ctx.objects ∧
    (w.exit).ctx.scene_links
      = w.ctx.scene_links.filter (fun j => decide (j ≠ h)) ∧
    (w.exit).ctx.active = (match w.sess.act with
      | some a =>
          if a ∈ w.ctx.scene_links.filter (fun j => decide (j ≠ h))
          then some a
          else if w.ctx.active = some h then none else w.ctx.active
      | none => if w.ctx.active = some h then none else w.ctx.active) ∧
    (w.exit).ctx.use_snap = w.sess.use_snap ∧
    (w.exit).ctx.snap_element = w.sess.snap_element.getD w.ctx.snap_element ∧
    (w.exit).ctx.snap_target = w.sess.snap_target.getD w.ctx.snap_target ∧
    (w.exit).ctx.pivot_point = w.sess.pivot_point.getD w.ctx.pivot_point ∧
    (w.exit).ctx.transform_orientation
      = w.sess.transform_orientation.getD w.ctx.transform_orientation := by
  cases hact : w.sess.act with
  | none => simp [World.exit, World.destroy_helper, Context.unlink, hh, hact]
  | some a =>
      by_cases hm : a ∈ w.ctx.scene_links ∧ a ≠ h <;>
        simp [World.exit, World.destroy_helper, Context.unlink, hh, hact, hm,
          List.mem_filter]

/-- filter_append_ne, used for the exit path of a freshly linked helper:
filtering the link list against the helper index removes the trailing
link again. -/
theorem filter_append_ne (L : List Nat) (x : Nat) :
    (L ++ [x]).filter (fun j => decide (j ≠ x))
      = L.filter (fun j => decide (j ≠ x)) := by
  rw [List.filter_append]
  simp

/-- restore_filter_eq is the core of the selection restore argument: if
every index selected in the original registry differs from the helper
index, and during the session every linked non-helper index was left
existing but deselected, then filtering the unlinked link list against
the reselected registry yields exactly the original selection. -/
theorem restore_filter_eq (objs0 objsMid : List Obj) (L : List Nat) (h : Nat)
    (H1 : ∀ j ∈ L.filter (sel_pred objs0), j ≠ h)
    (H2 : ∀ j ∈ L, j ≠ h →
      (objsMid[j]? = none ∧ objs0[j]? = none) ∨
      (∃ o o', objs0[j]? = some o ∧ objsMid[j]? = some o' ∧ o'.select = false)) :
    (L.filter (fun j => decide (j ≠ h))).filter
        (sel_pred (restore_sel (L.filter (sel_pred objs0)) objsMid))
      = L.filter (sel_pred objs0) := by
  rw [List.filter_filter]
  apply List.filter_congr
  intro j hj
  by_cases hsel : sel_pred objs0 j = true
  · have hjS : j ∈ L.filter (sel_pred objs0) := List.mem_filter.mpr ⟨hj, hsel⟩
    have hne : j ≠ h := H1 j hjS
    rcases H2 j hj hne with ⟨hmid, h0⟩ | ⟨o, o', h0, hmid, hs'⟩
    · rw [sel_pred] at hsel
      simp [h0] at hsel
    · have hos : o.select = true := by
        rw [sel_pred] at hsel
        simpa [h0] using hsel
      simp [sel_pred, get?_restore_sel, hjS, hmid, hne, h0, hos]
  · rw [Bool.not_eq_true] at hsel
    have hjS : j ∉ L.filter (sel_pred objs0) := by
      intro hmem
      rw [List.mem_filter] at hmem
      rw [hmem.2] at hsel
      exact Bool.true_eq_false.mp hsel
    by_cases hjh : j = h
    · subst hjh
      simp [hsel]
    · rcases H2 j hj hjh with ⟨hmid, h0⟩ | ⟨o, o', h0, hmid, hs'⟩
      · simp [sel_pred, get?_restore_sel, hjS, hmid, h0, hjh]
      · have hos : o.select = false := by
          rw [sel_pred] at hsel
          simpa [h0] using hsel
        simp [sel_pred, get?_restore_sel, hjS, hmid, h0, hs', hjh, hos]

/-- c1_restore (C1, amended): provided no object named
Archipack_snap_helper is among the selected linked objects when the
session starts, and the active object at that moment, if any, is a
registry object linked to the scene and not named Archipack_snap_helper,
running exit after init (with an arbitrary stored placeloc written in
between, which covers both the SUCCESS and the CANCEL modal outcome)
restores the selection set, the active object, the snap tool settings,
the pivot mode and the orientation mode to their values from immediately
before init. -/
theorem c1_restore (w : World) (pl : Vector)
    (H : ∀ i ∈ w.ctx.selected_objects, ∀ o, w.ctx.objects[i]? = some o →
      o.name ≠ "Archipack_snap_helper")
    (Hact : ∀ a, w.ctx.active = some a → a ∈ w.ctx.scene_links ∧
      ∃ o, w.ctx.objects[a]? = some o ∧ o.name ≠ "Archipack_snap_helper") :
    (World.exit ((w.init).with_placeloc pl)).ctx.selected_objects
        = w.ctx.selected_objects ∧
    (World.exit ((w.init).with_placeloc pl)).ctx.active = w.ctx.active ∧
    (World.exit ((w.init).with_placeloc pl)).ctx.use_snap = w.ctx.use_snap ∧
    (World.exit ((w.init).with_placeloc pl)).ctx.snap_element
        = w.ctx.snap_element ∧
    (World.exit ((w.init).with_placeloc pl)).ctx.snap_target
        = w.ctx.snap_target ∧
    (World.exit ((w.init).with_placeloc pl)).ctx.pivot_point
        = w.ctx.pivot_point ∧
    (World.exit ((w.init).with_placeloc pl)).ctx.transform_orientation
        = w.ctx.transform_orientation := by
  have hdes : ∀ j, ((w.ctx.deselect_all).objects)[j]?
      = (w.ctx.objects[j]?).map
        (fun o => if decide (j ∈ w.ctx.scene_links) then { o with select := false }
          else o) :=
    fun j => get?_set_sel_by _ _ _ _
  cases hf : find_by_name "Archipack_snap_helper" (w.ctx.deselect_all).objects with
  | some i =>
      obtain ⟨hlen, ⟨ob₀, hob₀, hname, hobj⟩, hpt, hlinks, hact, hstore, hsess,
        htr2, hus, hse, hst, hpp, hto, hat⟩ :=
        create_helper_found { w with
          ctx := w.ctx.deselect_all,
          sess := {
            act := w.ctx.active,
            sel := w.ctx.selected_objects,
            use_snap := (w.ctx.deselect_all).use_snap,
            snap_element := some (w.ctx.deselect_all).snap_element,
            snap_target := some (w.ctx.deselect_all).snap_target,
            pivot_point := some (w.ctx.deselect_all).pivot_point,
            transform_orientation := some (w.ctx.deselect_all).transform_orientation,
            draw_handler := some w.trace.length } } i hf
      have hXh : ((w.init).with_placeloc pl).store.helper = some i := by
        have h2 := congrArg SnapStore.helper hstore
        simpa using h2
      have hXsess : ((w.init).with_placeloc pl).sess = {
          act := w.ctx.active,
          sel := w.ctx.selected_objects,
          use_snap := w.ctx.use_snap,
          snap_element := some w.ctx.snap_element,
          snap_target := some w.ctx.snap_target,
          pivot_point := some w.ctx.pivot_point,
          transform_orientation := some w.ctx.transform_orientation,
          draw_handler := some w.trace.length } := hsess
      have hXactive : ((w.init).with_placeloc pl).ctx.active = some i := hact
      have hXlinks : ((w.init).with_placeloc pl).ctx.scene_links
          = (if (w.ctx.deselect_all).scene_find "Archipack_snap_helper"
             then w.ctx.scene_links else w.ctx.scene_links ++ [i]) := hlinks
      have hptX : ∀ j, j ≠ i → ((w.init).with_placeloc pl).ctx.objects[j]?
          = ((w.ctx.deselect_all).objects)[j]? := hpt
      have hobX : ((w.ctx.deselect_all).objects)[i]? = some ob₀ := hob₀
      obtain ⟨hobjs, hlinks2, hactive, hus2, hse2, hst2, hpp2, hto2⟩ :=
        exit_ctx_fields ((w.init).with_placeloc pl) i hXh
      have H1 : ∀ j ∈ w.ctx.scene_links.filter (sel_pred w.ctx.objects),
          j ≠ i := by
        intro j hjS hji
        have hm := List.mem_filter.mp hjS
        have hsel2 := hm.2
        rw [sel_pred] at hsel2
        cases h0 : w.ctx.objects[j]? with
        | none => simp [h0] at hsel2
        | some o =>
            have hnm : o.name ≠ "Archipack_snap_helper" := H j hjS o h0
            have hmap := (hdes i).symm.trans hobX
            rw [← hji, h0] at hmap
            have hfo : (if decide (j ∈ w.ctx.scene_links)
                then { o with select := false } else o) = ob₀ := by
              simpa using hmap
            have : ob₀.name = o.name := by
              by_cases hc : j ∈ w.ctx.scene_links <;> simp [hc] at hfo <;>
                rw [← hfo]
            exact hnm (this ▸ hname)
      have H2 : ∀ j ∈ w.ctx.scene_links, j ≠ i →
          (((w.init).with_placeloc pl).ctx.objects[j]? = none ∧
            w.ctx.objects[j]? = none) ∨
          (∃ o o', w.ctx.objects[j]? = some o ∧
            ((w.init).with_placeloc pl).ctx.objects[j]? = some o' ∧
            o'.select = false) := by
        intro j hjL hne
        have h1 : ((w.init).with_placeloc pl).ctx.objects[j]?
            = (w.ctx.objects[j]?).map
              (fun o => if decide (j ∈ w.ctx.scene_links)
                then { o with select := false } else o) := by
          rw [hptX j hne]
          exact hdes j
        rw [h1]
        cases h0 : w.ctx.objects[j]? with
        | none => exact Or.inl ⟨rfl, rfl⟩
        | some o =>
            refine Or.inr ⟨o, { o with select := false }, rfl, ?_, rfl⟩
            simp [hjL]
      have hL : (((w.init).with_placeloc pl).ctx.scene_links).filter
            (fun j => decide (j ≠ i))
          = w.ctx.scene_links.filter (fun j => decide (j ≠ i)) := by
        rw [hXlinks]
        cases hsf : (w.ctx.deselect_all).scene_find "Archipack_snap_helper" <;>
          simp [filter_append_ne]
      refine ⟨?_, ?_, ?_, ?_, ?_, ?_, ?_⟩
      · simp only [Context.selected_objects]
        rw [hobjs, hlinks2, hL]
        have hXsel : ((w.init).with_placeloc pl).sess.sel
            = w.ctx.scene_links.filter (sel_pred w.ctx.objects) := by
          rw [hXsess]
          rfl
        rw [hXsel]
        exact restore_filter_eq w.ctx.objects
          ((w.init).with_placeloc pl).ctx.objects w.ctx.scene_links i H1 H2
      · rw [hactive]
        have hXact : ((w.init).with_placeloc pl).sess.act = w.ctx.active := by
          rw [hXsess]
        rw [hXact]
        cases hact0 : w.ctx.active with
        | none => simp [hXactive]
        | some a =>
            obtain ⟨haL, o, ho, hnm⟩ := Hact a hact0
            have hai : a ≠ i := by
              intro hai
              have hmap := (hdes i).symm.trans hobX
              rw [← hai, ho] at hmap
              have hfo : (if decide (a ∈ w.ctx.scene_links)
                  then { o with select := false } else o) = ob₀ := by
                simpa using hmap
              have hON : ob₀.name = o.name := by
                by_cases hc : a ∈ w.ctx.scene_links <;> simp [hc] at hfo <;>
                  rw [← hfo]
              exact hnm (hON ▸ hname)
            have hmem : a ∈ (((w.init).with_placeloc pl).ctx.scene_links).filter
                (fun j => decide (j ≠ i)) := by
              rw [hXlinks]
              cases hsf : (w.ctx.deselect_all).scene_find "Archipack_snap_helper" <;>
                simp [List.mem_filter, List.mem_append, haL, hai]
            simp only [if_pos hmem]
      · rw [hus2, hXsess]
      · rw [hse2, hXsess]
        rfl
      · rw [hst2, hXsess]
        rfl
      · rw [hpp2, hXsess]
        rfl
      · rw [hto2, hXsess]
        rfl
  | none =>
      obtain ⟨hlen, hobj, hpt, hlinks, hact, hstore, hsess, htr2, hus, hse,
        hst, hpp, hto, hat⟩ :=
        create_helper_none { w with
          ctx := w.ctx.deselect_all,
          sess := {
            act := w.ctx.active,
            sel := w.ctx.selected_objects,
            use_snap := (w.ctx.deselect_all).use_snap,
            snap_element := some (w.ctx.deselect_all).snap_element,
            snap_target := some (w.ctx.deselect_all).snap_target,
            pivot_point := some (w.ctx.deselect_all).pivot_point,
            transform_orientation := some (w.ctx.deselect_all).transform_orientation,
            draw_handler := some w.trace.length } } hf
      have hN : ((w.ctx.deselect_all).objects).length = w.ctx.objects.length := by
        simp [Context.deselect_all, length_set_sel_by]
      have hXh : ((w.init).with_placeloc pl).store.helper
          = some ((w.ctx.deselect_all).objects).length := by
        have h2 := congrArg SnapStore.helper hstore
        simpa using h2
      have hXsess : ((w.init).with_placeloc pl).sess = {
          act := w.ctx.active,
          sel := w.ctx.selected_objects,
          use_snap := w.ctx.use_snap,
          snap_element := some w.ctx.snap_element,
          snap_target := some w.ctx.snap_target,
          pivot_point := some w.ctx.pivot_point,
          transform_orientation := some w.ctx.transform_orientation,
          draw_handler := some w.trace.length } := hsess
      have hXactive : ((w.init).with_placeloc pl).ctx.active
          = some ((w.ctx.deselect_all).objects).length := hact
      have hXlinks : ((w.init).with_placeloc pl).ctx.scene_links
          = w.ctx.scene_links ++ [((w.ctx.deselect_all).objects).length] := hlinks
      have hptX : ∀ j, j ≠ ((w.ctx.deselect_all).objects).length →
          ((w.init).with_placeloc pl).ctx.objects[j]?
            = (((w.ctx.deselect_all).deselect_all).objects)[j]? := hpt
      have hdes2 : ∀ j, (((w.ctx.deselect_all).deselect_all).objects)[j]?
          = (((w.ctx.objects[j]?).map
              (fun o => if decide (j ∈ w.ctx.scene_links)
                then { o with select := false } else o)).map
              (fun o => if decide (j ∈ w.ctx.scene_links)
                then { o with select := false } else o)) := by
        intro j
        have e1 : (((w.ctx.deselect_all).deselect_all).objects)[j]?
            = (((w.ctx.deselect_all).objects)[j]?).map
              (fun o => if decide (j ∈ w.ctx.scene_links)
                then { o with select := false } else o) :=
          get?_set_sel_by _ _ _ _
        rw [e1, hdes j]
      obtain ⟨hobjs, hlinks2, hactive, hus2, hse2, hst2, hpp2, hto2⟩ :=
        exit_ctx_fields ((w.init).with_placeloc pl)
          ((w.ctx.deselect_all).objects).length hXh
      have H1 : ∀ j ∈ w.ctx.scene_links.filter (sel_pred w.ctx.objects),
          j ≠ ((w.ctx.deselect_all).objects).length := by
        intro j hjS hji
        have hm := List.mem_filter.mp hjS
        have hsel2 := hm.2
        rw [sel_pred] at hsel2
        cases h0 : w.ctx.objects[j]? with
        | none => simp [h0] at hsel2
        | some o =>
            have hge : w.ctx.objects.length ≤ j := by
              rw [hji, hN]
            rw [List.getElem?_eq_none hge] at h0
            exact Option.noConfusion h0
      have H2 : ∀ j ∈ w.ctx.scene_links,
          j ≠ ((w.ctx.deselect_all).objects).length →
          (((w.init).with_placeloc pl).ctx.objects[j]? = none ∧
            w.ctx.objects[j]? = none) ∨
          (∃ o o', w.ctx.objects[j]? = some o ∧
            ((w.init).with_placeloc pl).ctx.objects[j]? = some o' ∧
            o'.select = false) := by
        intro j hjL hne
        have h1 := (hptX j hne).trans (hdes2 j)
        rw [h1]
        cases h0 : w.ctx.objects[j]? with
        | none => exact Or.inl ⟨rfl, rfl⟩
        | some o =>
            refine Or.inr ⟨o, { o with select := false }, rfl, ?_, rfl⟩
            simp [hjL]
      have hL : (((w.init).with_placeloc pl).ctx.scene_links).filter
            (fun j => decide (j ≠ ((w.ctx.deselect_all).objects).length))
          = w.ctx.scene_links.filter
            (fun j => decide (j ≠ ((w.ctx.deselect_all).objects).length)) := by
        rw [hXlinks]
        exact filter_append_ne _ _
      refine ⟨?_, ?_, ?_, ?_, ?_, ?_, ?_⟩
      · simp only [Context.selected_objects]
        rw [hobjs, hlinks2, hL]
        have hXsel : ((w.init).with_placeloc pl).sess.sel
            = w.ctx.scene_links.filter (sel_pred w.ctx.objects) := by
          rw [hXsess]
          rfl
        rw [hXsel]
        exact restore_filter_eq w.ctx.objects
          ((w.init).with_placeloc pl).ctx.objects w.ctx.scene_links
          ((w.ctx.deselect_all).objects).length H1 H2
      · rw [hactive]
        have hXact : ((w.init).with_placeloc pl).sess.act = w.ctx.active := by
          rw [hXsess]
        rw [hXact]
        cases hact0 : w.ctx.active with
        | none => simp [hXactive]
        | some a =>
            obtain ⟨haL, o, ho, hnm⟩ := Hact a hact0
            have hai : a ≠ ((w.ctx.deselect_all).objects).length := by
              intro hji
              have hge : w.ctx.objects.length ≤ a := by rw [hji, hN]
              rw [List.getElem?_eq_none hge] at ho
              exact Option.noConfusion ho
            have hmem : a ∈ (((w.init).with_placeloc pl).ctx.scene_links).filter
                (fun j => decide (j ≠ ((w.ctx.deselect_all).objects).length)) := by
              rw [hXlinks]
              simp [List.mem_filter, List.mem_append, haL, hai]
            simp only [if_pos hmem]
      · rw [hus2, hXsess]
      · rw [hse2, hXsess]
        rfl
      · rw [hst2, hXsess]
        rfl
      · rw [hpp2, hXsess]
        rfl
      · rw [hto2, hXsess]
        rfl

/-- C2: on a terminal modal event, ESC or RIGHTMOUSE triggers the callback
with CANCEL; any other event first copies the helper live location into
the stored placeloc and then triggers the callback with SUCCESS (the
recorded placeloc at call time is the helper location); in both cases the
session exit runs on the result and the operator returns FINISHED. -/
theorem c2_terminal_event (w : World) (e : Event) :
    (e.type = "ESC" ∨ e.type = "RIGHTMOUSE" →
      w.modal e = some (World.exit { w with
          trace := w.trace ++ [TraceEvent.tag_redraw,
            TraceEvent.callback_call w.store.callback "CANCEL" w.store.placeloc] },
        "FINISHED")) ∧
    (¬ (e.type = "ESC" ∨ e.type = "RIGHTMOUSE") →
      ∀ h ob, w.store.helper = some h → w.ctx.objects[h]? = some ob →
        w.modal e = some (World.exit { w with
            store := { w.store with placeloc := ob.location },
            trace := w.trace ++ [TraceEvent.tag_redraw,
              TraceEvent.callback_call w.store.callback "SUCCESS" ob.location] },
          "FINISHED")) := by
  constructor
  · intro hev
    simp [World.modal, hev, List.append_assoc]
  · intro hev h ob hh hob
    simp [World.modal, hev, hh, hob, List.append_assoc]

/-- C3: snap_point with neither takeloc nor takemat fails with the
invalid argument ValueError, and the host context, the session fields
and the event trace are untouched: no host object is created and no
session is started before the failure. -/
theorem c3_missing_args (w : World) (d cb : Nat) (axes : Bool × Bool × Bool)
    (orient mode : String) :
    (snap_point none d cb none axes orient mode w).2
        = Except.error "ArchipackSnap: Either takeloc or takemat must be defined" ∧
    (snap_point none d cb none axes orient mode w).1.ctx = w.ctx ∧
    (snap_point none d cb none axes orient mode w).1.trace = w.trace ∧
    (snap_point none d cb none axes orient mode w).1.sess = w.sess :=
  ⟨rfl, rfl, rfl, rfl⟩

/-- C5: invoking the operator outside a VIEW_3D area only reports a
warning and returns FINISHED: the context, store and session are all
unchanged, the trace gains exactly the warning report, so no callback
runs and no helper object is created. -/
theorem c5_no_view3d (w : World) (hv : w.ctx.area_type ≠ "VIEW_3D") :
    w.invoke = ({ w with trace := w.trace
        ++ [TraceEvent.report "WARNING" "View3D not found, cannot run operator"] },
      "FINISHED") := by
  simp [World.invoke, hv]

/-- C6: on the cancel path the callback is invoked exactly once, with
outcome CANCEL, and the stored placeloc is not updated from the helper
live position: it survives the whole modal step unchanged. -/
theorem c6_cancel_path (w : World) (e : Event)
    (hev : e.type = "ESC" ∨ e.type = "RIGHTMOUSE") :
    ∃ w', w.modal e = some (w', "FINISHED") ∧
      w'.store.placeloc = w.store.placeloc ∧
      callback_count w'.trace = callback_count w.trace + 1 ∧
      cancel_count w'.trace = cancel_count w.trace + 1 := by
  refine ⟨World.exit { w with trace := (w.trace ++ [TraceEvent.tag_redraw])
      ++ [TraceEvent.callback_call w.store.callback "CANCEL" w.store.placeloc] },
    ?_, ?_, ?_, ?_⟩
  · simp [World.modal, hev]
  · rw [exit_store_placeloc]
  · rw [exit_trace]
    simp [callback_count, List.filter_append]
  · rw [exit_trace]
    simp [cancel_count, List.filter_append]

/-- C7: delta is always the subtraction of takeloc from placeloc, never
an independently stored value; in particular after exit has run (the
helper reference being cleared) it is derived from the stored placeloc
and takeloc fields. -/
theorem c7_delta_derived (w : World) :
    w.sp_delta = (w.sp_placeloc).sub w.sp_takeloc ∧
    (w.exit).sp_delta = ((w.exit).store.placeloc).sub ((w.exit).store.takeloc) := by
  refine ⟨rfl, ?_⟩
  have h := exit_store_helper w
  simp [World.sp_delta, World.sp_placeloc, World.sp_takeloc, h]

/-- C10: when snap_point fails for want of takeloc and takemat, the store
has already received the caller draw hook, callback hook and constraint
axes, while takeloc, placeloc, helper matrix and orientation keep their
previous values: the failure is not atomic over the store. -/
theorem c10_partial_store (w : World) (d cb : Nat) (axes : Bool × Bool × Bool)
    (orient mode : String) :
    (snap_point none d cb none axes orient mode w).2
        = Except.error "ArchipackSnap: Either takeloc or takemat must be defined" ∧
    (snap_point none d cb none axes orient mode w).1.store.draw = some d ∧
    (snap_point none d cb none axes orient mode w).1.store.callback = some cb ∧
    (snap_point none d cb none axes orient mode w).1.store.constraint_axis = axes ∧
    (snap_point none d cb none axes orient mode w).1.store.takeloc = w.store.takeloc ∧
    (snap_point none d cb none axes orient mode w).1.store.placeloc = w.store.placeloc ∧
    (snap_point none d cb none axes orient mode w).1.store.helper_matrix = w.store.helper_matrix ∧
    (snap_point none d cb none axes orient mode w).1.store.transform_orientation
        = w.store.transform_orientation :=
  ⟨rfl, rfl, rfl, rfl, rfl, rfl, rfl, rfl⟩

/-- C8: when an object with the reserved helper name exists in the
registry it is reused, not recreated (the registry size is unchanged),
relinked into the scene exactly when it was unlinked; otherwise a fresh
object is created at the end of the registry, named, and marked with the
fake user flags on the object and its data; in both cases the helper
carries the stored helper matrix as world transform, is selected, is the
active object and is referenced by the store. -/
theorem c8_create_helper (w : World) :
    (∀ i, find_by_name "Archipack_snap_helper" w.ctx.objects = some i →
      (w.create_helper).ctx.objects.length = w.ctx.objects.length ∧
      (w.ctx.scene_find "Archipack_snap_helper" = true →
        (w.create_helper).ctx.scene_links = w.ctx.scene_links) ∧
      (w.ctx.scene_find "Archipack_snap_helper" = false →
        (w.create_helper).ctx.scene_links = w.ctx.scene_links ++ [i]) ∧
      (w.create_helper).store.helper = some i ∧
      (w.create_helper).ctx.active = some i ∧
      (∃ ob, (w.create_helper).ctx.objects[i]? = some ob ∧
        ob.matrix_world = w.store.helper_matrix ∧ ob.select = true)) ∧
    (find_by_name "Archipack_snap_helper" w.ctx.objects = none →
      (w.create_helper).ctx.objects.length = w.ctx.objects.length + 1 ∧
      (w.create_helper).ctx.scene_links
        = w.ctx.scene_links ++ [w.ctx.objects.length] ∧
      (w.create_helper).store.helper = some w.ctx.objects.length ∧
      (w.create_helper).ctx.active = some w.ctx.objects.length ∧
      (∃ ob, (w.create_helper).ctx.objects[w.ctx.objects.length]? = some ob ∧
        ob.name = "Archipack_snap_helper" ∧ ob.use_fake_user = true ∧
        ob.data_use_fake_user = true ∧
        ob.matrix_world = w.store.helper_matrix ∧ ob.select = true)) := by
  constructor
  · intro i hf
    obtain ⟨hlen, ⟨ob₀, hob₀, hname, hobj⟩, hpt, hlinks, hact, hstore, _⟩ :=
      create_helper_found w i hf
    refine ⟨hlen, ?_, ?_, ?_, hact, ⟨_, hobj, rfl, rfl⟩⟩
    · intro hsf
      rw [hlinks]
      simp [hsf]
    · intro hsf
      rw [hlinks]
      simp [hsf]
    · have h2 := congrArg SnapStore.helper hstore
      simpa using h2
  · intro hf
    obtain ⟨hlen, hobj, hpt, hlinks, hact, hstore, _⟩ := create_helper_none w hf
    refine ⟨hlen, hlinks, ?_, hact, ⟨_, hobj, rfl, rfl, rfl, rfl, rfl⟩⟩
    have h2 := congrArg SnapStore.helper hstore
    simpa using h2

/-- c1_counterexample: running init then exit on a world where the
reserved helper object is linked and selected does not restore the
selection set (the helper ends unlinked, so the selection after exit is
empty while it held the helper before the session); and on a world where
the helper is linked and active but not selected, the active object is
not restored (the restore assignment is a no-op on the just-unlinked
helper, leaving no active object).  Both scenarios refute the
unconditional form of the session restore claim. -/
theorem c1_counterexample :
    (World.exit (World.init world_c1)).ctx.selected_objects
      ≠ world_c1.ctx.selected_objects ∧
    (World.exit (World.init world_c1b)).ctx.active
      ≠ world_c1b.ctx.active := by decide

/-- c1_restore_witness applies the session restore theorem at a concrete
benign world, discharging the helper-not-selected and the active-object
hypotheses. -/
theorem c1_restore_witness :
    (World.exit ((world_ok.init).with_placeloc Vector.zero)).ctx.selected_objects
      = world_ok.ctx.selected_objects ∧
    (World.exit ((world_ok.init).with_placeloc Vector.zero)).ctx.active
      = world_ok.ctx.active := by
  have h := c1_restore world_ok Vector.zero
    (by
      intro i hi o ho
      have hs : world_ok.ctx.selected_objects = [0] := by decide
      rw [hs, List.mem_singleton] at hi
      subst hi
      have h1 : world_ok.ctx.objects[0]? = some cube_obj := rfl
      have hoc := Option.some.inj (h1.symm.trans ho)
      rw [← hoc]
      decide)
    (by
      intro a ha
      have h0 : (some 0 : Option Nat) = some a := ha
      obtain rfl : (0 : Nat) = a := Option.some.inj h0
      exact ⟨by decide, cube_obj, rfl, by decide⟩)
  exact ⟨h.1, h.2.1⟩

/-- c2_terminal_event_witness applies the terminal event theorem at a
concrete modal world, once for the ESC cancel branch and once for a
confirm event. -/
theorem c2_terminal_event_witness :
    world_modal.modal { type := "ESC" }
      = some (World.exit { world_modal with
          trace := world_modal.trace ++ [TraceEvent.tag_redraw,
            TraceEvent.callback_call world_modal.store.callback "CANCEL"
              world_modal.store.placeloc] }, "FINISHED") ∧
    world_modal.modal { type := "RET" }
      = some (World.exit { world_modal with
          store := { world_modal.store with placeloc := cube_obj.location },
          trace := world_modal.trace ++ [TraceEvent.tag_redraw,
            TraceEvent.callback_call world_modal.store.callback "SUCCESS"
              cube_obj.location] }, "FINISHED") :=
  ⟨(c2_terminal_event world_modal { type := "ESC" }).1 (Or.inl rfl),
   (c2_terminal_event world_modal { type := "RET" }).2 (by decide) 0 cube_obj
     rfl rfl⟩

/-- c5_no_view3d_witness applies the no-viewport theorem at a concrete
world whose area is the properties editor. -/
theorem c5_no_view3d_witness :
    world_noview.invoke = ({ world_noview with
        trace := world_noview.trace
          ++ [TraceEvent.report "WARNING" "View3D not found, cannot run operator"] },
      "FINISHED") :=
  c5_no_view3d world_noview (by decide)

/-- c6_cancel_path_witness applies the cancel path theorem at a concrete
modal world and ESC event. -/
theorem c6_cancel_path_witness :
    (world_modal.modal { type := "ESC" }).isSome = true ∧
    ((world_modal.modal { type := "ESC" }).map (fun p => p.1.store.placeloc))
      = some world_modal.store.placeloc := by
  obtain ⟨w', hw, hpl, h1, h2⟩ :=
    c6_cancel_path world_modal { type := "ESC" } (Or.inl rfl)
  rw [hw]
  exact ⟨rfl, by simp [hpl]⟩

/-- c8_create_helper_witness applies the helper acquisition theorem at a
concrete world whose registry already holds the (unlinked) reserved
helper object. -/
theorem c8_create_helper_witness :
    (world_helper.create_helper).ctx.objects.length
      = world_helper.ctx.objects.length ∧
    (world_helper.create_helper).store.helper = some 0 ∧
    (world_helper.create_helper).ctx.scene_links
      = world_helper.ctx.scene_links ++ [0] := by
  obtain ⟨h1, h2, h3, h4, h5, h6⟩ :=
    (c8_create_helper world_helper).1 0 (by decide)
  exact ⟨h1, h4, h3 (by decide)⟩

/-- c9_zero_delta_witness applies the initial delta theorem at a concrete
world and takeloc. -/
theorem c9_zero_delta_witness :
    (snap_point (some { x := 1, y := 2, z := 3 }) 0 1 none (true, true, false)
      "GLOBAL" "OBJECT" world_ok).1.sp_delta = Vector.zero :=
  (c9_zero_delta world_ok (some { x := 1, y := 2, z := 3 }) 0 1 none
    (true, true, false) "GLOBAL" "OBJECT" (Or.inl rfl) rfl).2

end Archipack
